import Mathlib

/-!
Verification of the streaming-session / event-parsing protocol implemented by
the headless-CLI wrapper scripts in this repository
(`docs/claude-headless/...` and `docs/codex-headless/...`).

The Python sources are shallowly embedded: JSON values are modelled by the
`Json` inductive together with an executable parser standing for
`json.loads`; Python dictionaries are association lists; mutable objects
(parser statistics, client session state, service state) are passed as
explicit state; Python exceptions are modelled with `Except PyErr`; callbacks
are modelled as an emitted trace of `CallbackCall` values.

One deliberate approximation, used only at leaves: where the Python code
stores a JSON field of unexpected dynamic type directly into a typed slot
(e.g. `stats.session_id = data.get("session_id", "")` when the field is a
number), the embedding coerces with `Json.asString` / `Json.asRat` /
`Json.asInt` / `Json.asBool`, which agree with the source on every
well-typed payload; equality comparisons such as `msg_type == "init"` are
unaffected by the coercion.
-/

/-- An exact decimal number `m * 10 ^ e`, the value of a JSON number
literal. Kept in this mantissa/exponent form (rather than `ℚ`) so that all
embedded code evaluates by kernel reduction; `Dec.toRat` gives its value. -/
structure Dec where
  m : Int
  e : Int
deriving DecidableEq, Repr

/-- The rational value of an exact decimal. -/
def Dec.toRat (d : Dec) : ℚ := (d.m : ℚ) * (10 : ℚ) ^ d.e

/-- Exact addition of decimals (align exponents, add mantissas). -/
def Dec.add (a b : Dec) : Dec :=
  let e := min a.e b.e
  ⟨a.m * (10 : Int) ^ (a.e - e).toNat + b.m * (10 : Int) ^ (b.e - e).toNat, e⟩

/-- The integer a JSON number denotes when it is integral (`e ≥ 0`);
fractional decimals truncate as Python `int()` would. -/
def Dec.toInt (d : Dec) : Int :=
  if 0 ≤ d.e then d.m * (10 : Int) ^ d.e.toNat
  else d.m / (10 : Int) ^ (-d.e).toNat

/-- Model of a Python/JSON value as produced by `json.loads`. Numbers are
modelled as exact decimals (JSON numbers are decimal literals). -/
inductive Json where
  | null : Json
  | bool : Bool → Json
  | num : Dec → Json
  | str : String → Json
  | arr : List Json → Json
  | obj : List (String × Json) → Json
deriving Inhabited

/-- Python exceptions that the embedded code can raise. -/
inductive PyErr where
  | runtimeError (msg : String)
  | jsonDecodeError
  | attributeError
  | keyError (k : String)
  | typeError
  | fileNotFoundError
deriving Repr, DecidableEq

/-- JSON whitespace characters. -/
def isJsonWs (c : Char) : Bool :=
  c = ' ' || c = '\t' || c = '\n' || c = '\r'

/-- Whitespace removed by Python `str.strip()`. -/
def isPyWs (c : Char) : Bool :=
  c = ' ' || c = '\t' || c = '\n' || c = '\r' || c = Char.ofNat 11 || c = Char.ofNat 12

/-- Model of Python `str.strip()`: drop whitespace from both ends. -/
def pyStrip (s : String) : String :=
  String.mk (((s.data.dropWhile isPyWs).reverse.dropWhile isPyWs).reverse)

/-- Drop leading JSON whitespace. -/
def skipWs (cs : List Char) : List Char :=
  cs.dropWhile isJsonWs

/-- Decimal digit test. -/
def isDig (c : Char) : Bool := '0' ≤ c ∧ c ≤ '9'

/-- Digit value. -/
def digVal (c : Char) : Nat := c.toNat - '0'.toNat

/-- Fold a digit list to a natural number. -/
def digitsToNat (ds : List Char) : Nat :=
  ds.foldl (fun acc c => 10 * acc + digVal c) 0

/-- Hexadecimal digit value, if any. -/
def hexVal (c : Char) : Option Nat :=
  if isDig c then some (digVal c)
  else if 'a' ≤ c ∧ c ≤ 'f' then some (c.toNat - 'a'.toNat + 10)
  else if 'A' ≤ c ∧ c ≤ 'F' then some (c.toNat - 'A'.toNat + 10)
  else none

/-- Parse the body of a JSON string (after the opening quote), handling the
standard escape sequences. Returns the decoded characters and the rest. -/
def parseStrBody : List Char → Option (List Char × List Char)
  | [] => none
  | '"' :: rest => some ([], rest)
  | '\\' :: 'u' :: a :: b :: c :: d :: rest =>
    match hexVal a, hexVal b, hexVal c, hexVal d with
    | some x, some y, some z, some w =>
      let code := ((x * 16 + y) * 16 + z) * 16 + w
      (parseStrBody rest).map fun (s, r) => (Char.ofNat code :: s, r)
    | _, _, _, _ => none
  | '\\' :: e :: rest =>
    let dec : Option Char :=
      if e = '"' then some '"'
      else if e = '\\' then some '\\'
      else if e = '/' then some '/'
      else if e = 'n' then some '\n'
      else if e = 't' then some '\t'
      else if e = 'r' then some '\r'
      else if e = 'b' then some (Char.ofNat 8)
      else if e = 'f' then some (Char.ofNat 12)
      else none
    match dec with
    | some c => (parseStrBody rest).map fun (s, r) => (c :: s, r)
    | none => none
  | c :: rest =>
    if c.toNat < 32 then none
    else (parseStrBody rest).map fun (s, r) => (c :: s, r)

/-- Parse a (nonempty) run of decimal digits. -/
def parseDigits (cs : List Char) : Option (List Char × List Char) :=
  let ds := cs.takeWhile isDig
  if ds.isEmpty then none else some (ds, cs.drop ds.length)

/-- Parse a JSON number literal: `-?digits(.digits)?([eE][+-]?digits)?`. -/
def parseNum (cs : List Char) : Option (Json × List Char) := do
  let (neg, cs) := match cs with
    | '-' :: rest => (true, rest)
    | _ => (false, cs)
  let (ipart, cs) ← parseDigits cs
  let (fpart, cs) ← (match cs with
    | '.' :: rest =>
      match parseDigits rest with
      | some (ds, r) => some (ds, r)
      | none => none
    | _ => some (([] : List Char), cs))
  let (expNeg, expDs, cs) : Bool × List Char × List Char :=
      match cs with
      | 'e' :: rest | 'E' :: rest =>
        match rest with
        | '+' :: r2 =>
          (match parseDigits r2 with
           | some (ds, r3) => (false, ds, r3)
           | none => (false, [], cs))
        | '-' :: r2 =>
          (match parseDigits r2 with
           | some (ds, r3) => (true, ds, r3)
           | none => (false, [], cs))
        | _ =>
          (match parseDigits rest with
           | some (ds, r3) => (false, ds, r3)
           | none => (false, [], cs))
      | _ => (false, [], cs)
  let m0 : Int := (digitsToNat ipart : Int) * (10 : Int) ^ fpart.length + (digitsToNat fpart : Int)
  let expPart : Int := if expNeg then -(digitsToNat expDs : Int) else (digitsToNat expDs : Int)
  let value : Dec := ⟨if neg then -m0 else m0, expPart - (fpart.length : Int)⟩
  some (Json.num value, cs)

/-- Selector for the states of the JSON value parser: a whole value, the
items of an array (first item / after a comma), or the members of an object
(first member / after a comma). -/
inductive PMode where
  | val : PMode
  | arrStart : PMode
  | arrRest : PMode
  | objStart : PMode
  | objRest : PMode

/-- The JSON grammar, fuel-bounded (the fuel is sized from the input length
by `Json.parse`, so it never runs out on a real input). Array/object states
return `Json.arr` / `Json.obj` of the remaining items. -/
def parseF : Nat → PMode → List Char → Option (Json × List Char)
  | 0, _, _ => none
  | Nat.succ fuel, .val, cs =>
    (match skipWs cs with
    | 'n' :: 'u' :: 'l' :: 'l' :: rest => some (Json.null, rest)
    | 't' :: 'r' :: 'u' :: 'e' :: rest => some (Json.bool true, rest)
    | 'f' :: 'a' :: 'l' :: 's' :: 'e' :: rest => some (Json.bool false, rest)
    | '"' :: rest =>
      (parseStrBody rest).map fun (s, r) => (Json.str (String.mk s), r)
    | '[' :: rest => parseF fuel .arrStart (skipWs rest)
    | '{' :: rest => parseF fuel .objStart (skipWs rest)
    | other => parseNum other)
  | Nat.succ fuel, .arrStart, cs =>
    (match cs with
    | ']' :: rest => some (Json.arr [], rest)
    | _ => do
      let (j, r) ← parseF fuel .val cs
      let (tail, r2) ← parseF fuel .arrRest (skipWs r)
      match tail with
      | .arr js => some (Json.arr (j :: js), r2)
      | _ => none)
  | Nat.succ fuel, .arrRest, cs =>
    (match cs with
    | ']' :: rest => some (Json.arr [], rest)
    | ',' :: rest => do
      let (j, r) ← parseF fuel .val (skipWs rest)
      let (tail, r2) ← parseF fuel .arrRest (skipWs r)
      match tail with
      | .arr js => some (Json.arr (j :: js), r2)
      | _ => none
    | _ => none)
  | Nat.succ fuel, .objStart, cs =>
    (match cs with
    | '}' :: rest => some (Json.obj [], rest)
    | '"' :: rest => do
      let (k, r) ← parseStrBody rest
      match skipWs r with
      | ':' :: r2 => do
        let (v, r3) ← parseF fuel .val (skipWs r2)
        let (tail, r4) ← parseF fuel .objRest (skipWs r3)
        match tail with
        | .obj kvs => some (Json.obj ((String.mk k, v) :: kvs), r4)
        | _ => none
      | _ => none
    | _ => none)
  | Nat.succ fuel, .objRest, cs =>
    (match cs with
    | '}' :: rest => some (Json.obj [], rest)
    | ',' :: rest =>
      (match skipWs rest with
      | '"' :: r => do
        let (k, r1) ← parseStrBody r
        match skipWs r1 with
        | ':' :: r2 => do
          let (v, r3) ← parseF fuel .val (skipWs r2)
          let (tail, r4) ← parseF fuel .objRest (skipWs r3)
          match tail with
          | .obj kvs => some (Json.obj ((String.mk k, v) :: kvs), r4)
          | _ => none
        | _ => none
      | _ => none)
    | _ => none)

/-- Parse one JSON value. -/
def parseVal (fuel : Nat) (cs : List Char) : Option (Json × List Char) :=
  parseF fuel .val cs

/-- Model of Python `json.loads`: parse a complete JSON document, requiring
nothing but whitespace after the value. `none` stands for `json.loads`
raising `json.JSONDecodeError`. -/
def Json.parse (s : String) : Option Json :=
  match parseVal (2 * s.length + 8) s.data with
  | some (j, rest) => if skipWs rest = [] then some j else none
  | none => none

/-- First-match association-list lookup (JSON objects from `json.loads`
have unique keys). -/
def Json.assoc (kvs : List (String × Json)) (k : String) : Option Json :=
  match kvs with
  | [] => none
  | (k', v) :: rest => if k' = k then some v else Json.assoc rest k

/-- Python `d.get(k, default)`: raises `AttributeError` when the receiver is
not a dict, otherwise returns the value or the default. -/
def pyGetD (j : Json) (k : String) (d : Json) : Except PyErr Json :=
  match j with
  | .obj kvs => .ok ((Json.assoc kvs k).getD d)
  | _ => .error .attributeError

/-- Python `d[k]` on a dict: `KeyError` when missing, `AttributeError`-class
failure when the receiver is not a dict (approximating `TypeError`). -/
def pyIndex (j : Json) (k : String) : Except PyErr Json :=
  match j with
  | .obj kvs =>
    match Json.assoc kvs k with
    | some v => .ok v
    | none => .error (.keyError k)
  | _ => .error .typeError

/-- Python `for x in v` where the code expects a JSON array. -/
def pyIterList (j : Json) : Except PyErr (List Json) :=
  match j with
  | .arr xs => .ok xs
  | _ => .error .typeError

/-- Coerce a JSON value into a string slot (see the file comment). -/
def Json.asString : Json → String
  | .str s => s
  | _ => ""

/-- Coerce a JSON value into a numeric (cost) slot. -/
def Json.asDec : Json → Dec
  | .num d => d
  | _ => ⟨0, 0⟩

/-- Coerce a JSON value into an integer (duration / token-count) slot. -/
def Json.asInt : Json → Int
  | .num d => d.toInt
  | _ => 0

/-- Coerce a JSON value into a boolean flag slot. -/
def Json.asBool : Json → Bool
  | .bool b => b
  | _ => false

namespace Claude

/-- `EventType` of `claude-headless/examples/streaming/stream-parser.py`. -/
inductive EventType where
  | INIT : EventType
  | TEXT : EventType
  | TOOL_USE : EventType
  | TOOL_RESULT : EventType
  | THINKING : EventType
  | RESULT : EventType
  | ERROR : EventType
deriving DecidableEq, Repr

/-- A parsed event (`Event` dataclass): type, payload, raw line object. -/
structure Event where
  type : EventType
  data : Json
  raw : Json

/-- `StreamStats` accumulated during stream parsing. -/
structure StreamStats where
  text_chunks : Nat
  tool_uses : Nat
  total_tokens : Int
  cost_usd : Dec
  duration_ms : Int
  session_id : String
  is_error : Bool

/-- A fresh `StreamStats` (the dataclass defaults). -/
def StreamStats.init : StreamStats :=
  ⟨0, 0, 0, ⟨0, 0⟩, 0, "", false⟩

/-- Which optional callbacks are registered on the parser (each one is
`None` or set in the source; a flag per slot). -/
structure Callbacks where
  onText : Bool
  onToolUse : Bool
  onToolResult : Bool
  onThinking : Bool
  onError : Bool

/-- No callbacks registered (the constructor's defaults). -/
def Callbacks.none : Callbacks := ⟨false, false, false, false, false⟩

/-- Every callback registered. -/
def Callbacks.all : Callbacks := ⟨true, true, true, true, true⟩

/-- One recorded callback invocation, in firing order. -/
inductive CallbackCall where
  | text : String → CallbackCall
  | toolUse : String → Json → CallbackCall
  | toolResult : String → Json → CallbackCall
  | thinking : String → CallbackCall
  | err : String → CallbackCall

/-- The `for block in message.get("content", [])` loop of `parse_line` in
the `assistant` branch: the first text block with non-empty text, tool_use
block, tool_result block, or thinking block produces a `return`; unknown
block types and empty-text text blocks continue the loop; an exhausted loop
falls through to `return None`. -/
def processBlocks (cb : Callbacks) (st : StreamStats) (data : Json) :
    List Json → Except PyErr (StreamStats × List CallbackCall × Option Event)
  | [] => .ok (st, [], none)
  | block :: rest => do
    let btype := (← pyGetD block "type" (.str "")).asString
    if btype = "text" then do
      let text := (← pyGetD block "text" (.str "")).asString
      if text ≠ "" then
        .ok ({ st with text_chunks := st.text_chunks + 1 },
             if cb.onText then [.text text] else [],
             some ⟨.TEXT, .str text, data⟩)
      else
        processBlocks cb st data rest
    else if btype = "tool_use" then do
      let name := (← pyGetD block "name" (.str "unknown")).asString
      let input ← pyGetD block "input" (.obj [])
      .ok ({ st with tool_uses := st.tool_uses + 1 },
           if cb.onToolUse then [.toolUse name input] else [],
           some ⟨.TOOL_USE, .obj [("name", .str name), ("input", input)], data⟩)
    else if btype = "tool_result" then do
      let name := (← pyGetD block "name" (.str "unknown")).asString
      let result ← pyGetD block "content" (.str "")
      .ok (st, if cb.onToolResult then [.toolResult name result] else [],
           some ⟨.TOOL_RESULT, .obj [("name", .str name), ("result", result)], data⟩)
    else if btype = "thinking" then do
      let thinking := (← pyGetD block "thinking" (.str "")).asString
      .ok (st, if thinking ≠ "" ∧ cb.onThinking then [.thinking thinking] else [],
           some ⟨.THINKING, .str thinking, data⟩)
    else
      processBlocks cb st data rest

/-- `StreamParser.parse_line` of the claude variant: strip the line; blank
lines yield no event; a `json.JSONDecodeError` yields an `ERROR` event (the
exception-detail part of the message is abstracted to the fixed
description); otherwise dispatch on the declared `type`. The mutated
`self.stats` is returned, together with the callbacks fired. -/
def parse_line (cb : Callbacks) (st : StreamStats) (line : String) :
    Except PyErr (StreamStats × List CallbackCall × Option Event) := do
  let l := pyStrip line
  if l = "" then return (st, [], none)
  match Json.parse l with
  | none => return (st, [], some ⟨.ERROR, .str "JSON parse error", .obj []⟩)
  | some data =>
    let msg_type := (← pyGetD data "type" (.str "")).asString
    if msg_type = "init" then do
      let sid := (← pyGetD data "session_id" (.str "")).asString
      return ({ st with session_id := sid }, [], some ⟨.INIT, data, data⟩)
    else if msg_type = "assistant" then do
      let message ← pyGetD data "message" (.obj [])
      let content ← pyGetD message "content" (.arr [])
      let blocks ← pyIterList content
      processBlocks cb st data blocks
    else if msg_type = "result" then do
      let cost := (← pyGetD data "total_cost_usd" (.num ⟨0, 0⟩)).asDec
      let dur := (← pyGetD data "duration_ms" (.num ⟨0, 0⟩)).asInt
      let isErr := (← pyGetD data "is_error" (.bool false)).asBool
      let usage ← pyGetD data "usage" (.obj [])
      let tin := (← pyGetD usage "input_tokens" (.num ⟨0, 0⟩)).asInt
      let tout := (← pyGetD usage "output_tokens" (.num ⟨0, 0⟩)).asInt
      let st1 : StreamStats :=
        { st with cost_usd := cost, duration_ms := dur, is_error := isErr,
                  total_tokens := tin + tout }
      let calls ←
        if isErr ∧ cb.onError then do
          let msg := (← pyGetD data "result" (.str "Unknown error")).asString
          pure [CallbackCall.err msg]
        else pure ([] : List CallbackCall)
      return (st1, calls, some ⟨.RESULT, data, data⟩)
    else
      return (st, [], none)

/-- `StreamParser.parse_stream`: feed each line to `parse_line`, yielding
the non-`None` events; statistics and callback trace thread through. -/
def parse_stream (cb : Callbacks) (st : StreamStats) :
    List String → Except PyErr (StreamStats × List CallbackCall × List Event)
  | [] => .ok (st, [], [])
  | l :: ls => do
    let (st1, c1, ev) ← parse_line cb st l
    let (st2, c2, evs) ← parse_stream cb st1 ls
    .ok (st2, c1 ++ c2, (ev.toList) ++ evs)

/-- The accumulated text of a stream: the `data` of each `TEXT` event,
concatenated in arrival order (the quiet-mode collection loop in `main`). -/
def collectText (evs : List Event) : String :=
  String.join (evs.filterMap fun e =>
    if e.type = EventType.TEXT then some e.data.asString else Option.none)

end Claude

namespace Codex

/-- `EventType` of `codex-headless/examples/streaming/stream-parser.py`. -/
inductive EventType where
  | THREAD_STARTED : EventType
  | ITEM_COMPLETED : EventType
  | TURN_COMPLETED : EventType
  | TURN_FAILED : EventType
  | ERROR : EventType
deriving DecidableEq, Repr

/-- A parsed event of the codex variant. -/
structure Event where
  type : EventType
  data : Json
  raw : Json

/-- `Stats` accumulated by the codex variant. -/
structure Stats where
  text_chunks : Nat
  tool_uses : Nat
  total_tokens : Int
  duration_ms : Int
  thread_id : String
  is_error : Bool

/-- A fresh `Stats` (the dataclass defaults). -/
def Stats.init : Stats := ⟨0, 0, 0, 0, "", false⟩

/-- Which optional callbacks are registered (`on_text`, `on_tool`,
`on_error`). -/
structure Callbacks where
  onText : Bool
  onTool : Bool
  onError : Bool

/-- Every callback registered. -/
def Callbacks.all : Callbacks := ⟨true, true, true⟩

/-- One recorded callback invocation of the codex variant. -/
inductive CallbackCall where
  | text : String → CallbackCall
  | tool : String → CallbackCall
  | err : String → CallbackCall

/-- `StreamParser.parse_line` of the codex variant. The crucial difference
from the claude variant: a `json.JSONDecodeError` returns `None`, producing
no event at all. -/
def parse_line (cb : Callbacks) (st : Stats) (line : String) :
    Except PyErr (Stats × List CallbackCall × Option Event) := do
  let l := pyStrip line
  if l = "" then return (st, [], none)
  match Json.parse l with
  | none => return (st, [], none)
  | some data =>
    let msg_type := (← pyGetD data "type" (.str "")).asString
    if msg_type = "thread.started" then do
      let tid := (← pyGetD data "thread_id" (.str "")).asString
      return ({ st with thread_id := tid }, [], some ⟨.THREAD_STARTED, data, data⟩)
    else if msg_type = "item.completed" then do
      let item ← pyGetD data "item" (.obj [])
      let item_type := (← pyGetD item "type" .null).asString
      if item_type = "agent_message" then do
        let text := (← pyGetD item "text" (.str "")).asString
        if text ≠ "" then
          return ({ st with text_chunks := st.text_chunks + 1 },
                  if cb.onText then [.text text] else [],
                  some ⟨.ITEM_COMPLETED, data, data⟩)
        else
          return (st, [], some ⟨.ITEM_COMPLETED, data, data⟩)
      else if item_type = "tool_call" ∨ item_type = "command_execution" then do
        let toolV ← pyGetD item "tool" .null
        let cmdV ← pyGetD item "command" .null
        let name := if toolV.asString ≠ "" then toolV.asString
          else if cmdV.asString ≠ "" then cmdV.asString
          else "tool"
        return ({ st with tool_uses := st.tool_uses + 1 },
                if cb.onTool then [.tool name] else [],
                some ⟨.ITEM_COMPLETED, data, data⟩)
      else
        return (st, [], some ⟨.ITEM_COMPLETED, data, data⟩)
    else if msg_type = "turn.completed" ∨ msg_type = "turn.failed" then do
      let dur := (← pyGetD data "duration_ms" (.num ⟨0, 0⟩)).asInt
      let usage ← pyGetD data "usage" (.obj [])
      let tin := (← pyGetD usage "input_tokens" (.num ⟨0, 0⟩)).asInt
      let tout := (← pyGetD usage "output_tokens" (.num ⟨0, 0⟩)).asInt
      let isErr := msg_type = "turn.failed"
      let st1 : Stats :=
        { st with duration_ms := dur, total_tokens := tin + tout, is_error := isErr }
      let calls ←
        if isErr ∧ cb.onError then do
          let errObj ← pyGetD data "error" (.obj [])
          let msgV ← pyGetD errObj "message" .null
          let msg := if msgV.asString ≠ "" then msgV.asString else "Unknown error"
          pure [CallbackCall.err msg]
        else pure ([] : List CallbackCall)
      let etype := if msg_type = "turn.failed" then EventType.TURN_FAILED else EventType.TURN_COMPLETED
      return (st1, calls, some ⟨etype, data, data⟩)
    else if msg_type = "error" then do
      let calls ←
        if cb.onError then do
          let msgV ← pyGetD data "message" .null
          let msg := if msgV.asString ≠ "" then msgV.asString else "Error"
          pure [CallbackCall.err msg]
        else pure ([] : List CallbackCall)
      return (st, calls, some ⟨.ERROR, data, data⟩)
    else
      return (st, [], none)

end Codex

/-- Captured outcome of one `subprocess.run` call (batch mode): exit code
and the two output streams. The subprocess itself is the external CLI, out
of scope per the design spec; a run of the embedded code is parameterised by
this observed output. -/
structure ProcResult where
  returncode : Int
  stdout : String
  stderr : String

/-- Captured stdout lines and exit code of one `subprocess.Popen` call
(streaming mode). -/
structure ProcOutput where
  lines : List String
  returncode : Int
  stderr : String

/-- In-memory/on-disk session identity of a minimal client
(`ClaudeWrapper` of `templates/python-wrapper.py` and `ClaudeAgent` of
`examples/basic/agent.py` share this shape): the session file's content
(`none` when the file does not exist) and the cached `_session_id`. -/
structure ClientState where
  session_file : Option String
  _session_id : Option String

/-- Python `Path.unlink`: raises `FileNotFoundError` when the file is
missing. -/
def unlinkSessionFile (s : ClientState) : Except PyErr ClientState :=
  match s.session_file with
  | some _ => .ok { s with session_file := none }
  | none => .error .fileNotFoundError

namespace Wrapper

/-- `Result` dataclass of `templates/python-wrapper.py`. -/
structure Result where
  text : String
  cost_usd : Dec
  duration_ms : Int
  session_id : String
  is_error : Bool

/-- `ClaudeWrapper._execute`, given the observed subprocess output. Note
that the source never inspects `proc.returncode`: it goes straight to
`json.loads(proc.stdout)` (raising `JSONDecodeError` when stdout is not
JSON) and builds a `Result` from the parsed object. The `--resume` flag of
the command only depends on `_session_id`; the command construction itself
does not affect the returned value. -/
def _execute (proc : ProcResult) : Except PyErr Result := do
  match Json.parse proc.stdout with
  | none => .error .jsonDecodeError
  | some data => do
    let text := (← pyGetD data "result" (.str "")).asString
    let cost := (← pyGetD data "total_cost_usd" (.num ⟨0, 0⟩)).asDec
    let dur := (← pyGetD data "duration_ms" (.num ⟨0, 0⟩)).asInt
    let sid := (← pyGetD data "session_id" (.str "")).asString
    let isErr := (← pyGetD data "is_error" (.bool false)).asBool
    .ok ⟨text, cost, dur, sid, isErr⟩

/-- `ClaudeWrapper.reset`: delete the session file when it exists (guarding
the `unlink`), then clear the in-memory identifier. -/
def reset (s : ClientState) : Except PyErr ClientState := do
  let s1 ← if s.session_file.isSome then unlinkSessionFile s else pure s
  .ok { s1 with _session_id := none }

end Wrapper

namespace Agent

/-- `AgentResult` dataclass of `examples/basic/agent.py`. -/
structure AgentResult where
  text : String
  cost_usd : Dec
  duration_ms : Int
  session_id : String
  is_error : Bool
  num_turns : Int
  raw_output : Json

/-- `ClaudeAgent._run_once`: raises `RuntimeError` on a non-zero exit code,
otherwise parses stdout as one JSON object and builds an `AgentResult`. -/
def _run_once (proc : ProcResult) : Except PyErr AgentResult := do
  if proc.returncode ≠ 0 then
    .error (.runtimeError ("Claude CLI failed: " ++ proc.stderr))
  else
    match Json.parse proc.stdout with
    | none => .error .jsonDecodeError
    | some data => do
      let text := (← pyGetD data "result" (.str "")).asString
      let cost := (← pyGetD data "total_cost_usd" (.num ⟨0, 0⟩)).asDec
      let dur := (← pyGetD data "duration_ms" (.num ⟨0, 0⟩)).asInt
      let sid := (← pyGetD data "session_id" (.str "")).asString
      let isErr := (← pyGetD data "is_error" (.bool false)).asBool
      let nt := (← pyGetD data "num_turns" (.num ⟨0, 0⟩)).asInt
      .ok ⟨text, cost, dur, sid, isErr, nt, data⟩

/-- The `session_id` property: return the cached identifier; else read and
strip the session file; else run the one-time "Initialize agent session"
call (whose subprocess output is `initProc`), cache the returned identifier
and persist it. -/
def session_id (initProc : ProcResult) (s : ClientState) :
    Except PyErr (String × ClientState) :=
  match s._session_id with
  | some i => .ok (i, s)
  | none =>
    match s.session_file with
    | some txt =>
      let i := pyStrip txt
      .ok (i, { s with _session_id := some i })
    | none => do
      let r ← _run_once initProc
      let i := r.session_id
      .ok (i, { s with _session_id := some i, session_file := some i })

/-- `ClaudeAgent.reset_session`: delete the session file when present,
clear the cached identifier, then `return self.session_id` — which
immediately re-initializes a fresh session and persists it. -/
def reset_session (initProc : ProcResult) (s : ClientState) :
    Except PyErr (String × ClientState) := do
  let s1 ← if s.session_file.isSome then unlinkSessionFile s else pure s
  session_id initProc { s1 with _session_id := none }

/-- The per-line body of `ClaudeAgent.run`'s streaming loop for an
`assistant` event: collect `block["text"]` of every text block (note the
bracket access — a text block without a `"text"` key raises `KeyError`). -/
def collectTextBlocks : List Json → Except PyErr (List String)
  | [] => .ok []
  | b :: bs => do
    let bt := (← pyGetD b "type" .null).asString
    if bt = "text" then do
      let tJ ← pyIndex b "text"
      let more ← collectTextBlocks bs
      .ok (tJ.asString :: more)
    else
      collectTextBlocks bs

/-- The streaming loop of `ClaudeAgent.run` over `self.stream(prompt)`:
each non-blank line is `json.loads`-ed (raising on malformed lines), text
blocks of `assistant` events are accumulated and fed to `on_text`, and a
`result` event replaces `final_result`. Returns the accumulated text chunks
and the last `result` payload. -/
def runLoop : List String → List String → Option Json →
    Except PyErr (List String × Option Json)
  | [], texts, finalR => .ok (texts, finalR)
  | line :: rest, texts, finalR => do
    let l := pyStrip line
    if l = "" then runLoop rest texts finalR
    else
      match Json.parse l with
      | none => .error .jsonDecodeError
      | some data => do
        let t := (← pyGetD data "type" (.str "unknown")).asString
        if t = "assistant" then do
          let message ← pyGetD data "message" (.obj [])
          let content ← pyGetD message "content" (.arr [])
          let blocks ← pyIterList content
          let newTexts ← collectTextBlocks blocks
          runLoop rest (texts ++ newTexts) finalR
        else if t = "result" then
          runLoop rest texts (some data)
        else
          runLoop rest texts finalR

/-- `ClaudeAgent.run` in streaming mode (an `on_text` callback supplied),
given the observed subprocess output: drain the stream (the generator
raises `RuntimeError` after the last line when the exit code is non-zero),
then raise "No result event received" if no `result` event was decoded,
else build the `AgentResult`. Also returns the `on_text` trace. -/
def run (sid : String) (proc : ProcOutput) :
    Except PyErr (AgentResult × List String) := do
  let (texts, finalR) ← runLoop proc.lines [] none
  if proc.returncode ≠ 0 then
    .error (.runtimeError "Claude CLI failed with nonzero code")
  else
    match finalR with
    | none => .error (.runtimeError "No result event received")
    | some fr => do
      let cost := (← pyGetD fr "total_cost_usd" (.num ⟨0, 0⟩)).asDec
      let dur := (← pyGetD fr "duration_ms" (.num ⟨0, 0⟩)).asInt
      let sidR := (← pyGetD fr "session_id" (.str sid)).asString
      let isErr := (← pyGetD fr "is_error" (.bool false)).asBool
      let nt := (← pyGetD fr "num_turns" (.num ⟨0, 0⟩)).asInt
      .ok (⟨String.join texts, cost, dur, sidR, isErr, nt, fr⟩, texts)

/-- Whether a raw line decodes to a `result`-typed event in `run`'s loop
(blank and malformed lines do not; a malformed line makes the whole run
raise instead). -/
def isResultLine (line : String) : Bool :=
  let l := pyStrip line
  if l = "" then false
  else
    match Json.parse l with
    | none => false
    | some (.obj kvs) => ((Json.assoc kvs "type").getD (.str "unknown")).asString = "result"
    | some _ => false

end Agent

namespace AgentService

/-- `Config` of `examples/production/agent-service.py` (the fields the
session layer reads; `mcp_config` is its path when the file exists, else
`none`). -/
structure Config where
  permission_mode : String
  max_turns : Nat
  max_retries : Nat
  budget_usd : Option Dec
  mcp_config : Option String

/-- `TaskStatus` enumeration. -/
inductive TaskStatus where
  | PENDING : TaskStatus
  | RUNNING : TaskStatus
  | SUCCESS : TaskStatus
  | FAILED : TaskStatus
  | RETRYING : TaskStatus
deriving DecidableEq, Repr

/-- `TaskResult` dataclass (the archive `output_file` path is out of
scope). -/
structure TaskResult where
  task_id : String
  prompt : String
  status : TaskStatus
  output : String
  cost_usd : Dec
  duration_ms : Int
  attempts : Nat
  error : Option String
deriving DecidableEq, Repr

/-- `ServiceStats` accumulated across tasks. -/
structure ServiceStats where
  tasks_completed : Nat
  tasks_failed : Nat
  total_cost_usd : Dec
  total_duration_ms : Int
deriving DecidableEq, Repr

/-- A fresh `ServiceStats`. -/
def ServiceStats.init : ServiceStats := ⟨0, 0, ⟨0, 0⟩, 0⟩

/-- `AgentService._build_command`. -/
def _build_command (cfg : Config) (sid prompt : String) (stream : Bool) : List String :=
  ["claude", "-p", "--resume", sid, "--output-format",
   if stream then "stream-json" else "json",
   "--permission-mode", cfg.permission_mode, "--max-turns", toString cfg.max_turns]
  ++ (match cfg.mcp_config with | some p => ["--mcp-config", p] | none => [])
  ++ [prompt]

/-- Python `str(e)` on a modelled exception. -/
def pyErrStr : PyErr → String
  | .runtimeError m => m
  | .jsonDecodeError => "JSON decode error"
  | .attributeError => "AttributeError"
  | .keyError k => k
  | .typeError => "TypeError"
  | .fileNotFoundError => "FileNotFoundError"

/-- Text blocks collected by `run_task`'s streaming loop for one
`assistant` event (`block.get("text", "")`, appended even when empty, and
passed to `on_output`). -/
def svcTextBlocks : List Json → Except PyErr (List String)
  | [] => .ok []
  | b :: bs => do
    let bt := (← pyGetD b "type" .null).asString
    if bt = "text" then do
      let t := (← pyGetD b "text" (.str "")).asString
      let more ← svcTextBlocks bs
      .ok (t :: more)
    else
      svcTextBlocks bs

/-- The line loop of `run_task`: blank lines are skipped, a
`json.JSONDecodeError` on a line is swallowed (`pass`), `assistant` events
contribute text, and a `result` event replaces `result_data`. Any other
exception (e.g. an attribute error on a non-object line) propagates to the
attempt's handler. -/
def svcLines : List String → List String → Option Json →
    Except PyErr (List String × Option Json)
  | [], texts, rd => .ok (texts, rd)
  | line :: rest, texts, rd => do
    let l := pyStrip line
    if l = "" then svcLines rest texts rd
    else
      match Json.parse l with
      | none => svcLines rest texts rd
      | some data => do
        let mt := (← pyGetD data "type" (.str "")).asString
        if mt = "assistant" then do
          let msgv ← pyGetD data "message" (.obj [])
          let content ← pyGetD msgv "content" (.arr [])
          let blocks ← pyIterList content
          let ts ← svcTextBlocks blocks
          svcLines rest (texts ++ ts) rd
        else if mt = "result" then
          svcLines rest texts (some data)
        else
          svcLines rest texts rd

/-- One attempt's subprocess consumption inside `run_task`'s `try`: drain
the stream, then `proc.wait()`; a non-zero exit raises `RuntimeError("CLI
error: ...")` before any statistics are touched. -/
def svcAttempt (out : ProcOutput) : Except PyErr (List String × Option Json) := do
  let (texts, rd) ← svcLines out.lines [] none
  if out.returncode ≠ 0 then
    .error (.runtimeError ("CLI error: " ++ out.stderr))
  else
    .ok (texts, rd)

/-- The tail of a successful attempt: read `is_error` / cost / duration
from `result_data` (which is the empty dict `{}` when no `result` event
arrived), update the service statistics, and return the `TaskResult`
(`FAILED` on a semantic error — without retrying — else `SUCCESS`). The
budget check only logs, so it is not modelled. -/
def attemptFinish (stats : ServiceStats) (task_id prompt : String) (att : Nat)
    (texts : List String) (rd : Option Json) : Except PyErr (ServiceStats × TaskResult) := do
  let rdj := rd.getD (.obj [])
  let isErr := (← pyGetD rdj "is_error" (.bool false)).asBool
  let cost := (← pyGetD rdj "total_cost_usd" (.num ⟨0, 0⟩)).asDec
  let dur := (← pyGetD rdj "duration_ms" (.num ⟨0, 0⟩)).asInt
  let stats1 : ServiceStats :=
    { stats with total_cost_usd := stats.total_cost_usd.add cost,
                 total_duration_ms := stats.total_duration_ms + dur }
  if isErr then do
    let emsg := (← pyGetD rdj "result" (.str "Unknown error")).asString
    .ok ({ stats1 with tasks_failed := stats1.tasks_failed + 1 },
         ⟨task_id, prompt, .FAILED, String.join texts, cost, dur, att, some emsg⟩)
  else
    .ok ({ stats1 with tasks_completed := stats1.tasks_completed + 1 },
         ⟨task_id, prompt, .SUCCESS, String.join texts, cost, dur, att, none⟩)

/-- One recorded attempt of `run_task`: the command passed to
`subprocess.Popen` and the backoff slept before launching it. -/
structure AttemptRec where
  cmd : List String
  sleptBefore : Nat
deriving DecidableEq

/-- The `while attempt < self.config.max_retries` loop of `run_task`,
with `remaining = max_retries - attempt` as the recursion measure. Each
iteration increments `attempt`, sleeps `2 ^ (attempt - 1)` when `attempt >
1`, rebuilds the same command (same prompt, same `session_id`), launches
the subprocess (`oracle attempt` is its observed output), and either
returns the attempt's `TaskResult` or records the exception and retries.
When the ceiling is exhausted the task is terminally `FAILED` with the last
error. -/
def run_task_go (cfg : Config) (oracle : Nat → ProcOutput) (sid task_id prompt : String) :
    Nat → Nat → ServiceStats → Option String → List AttemptRec →
    ServiceStats × TaskResult × List AttemptRec
  | 0, attempt, stats, lastErr, trace =>
    ({ stats with tasks_failed := stats.tasks_failed + 1 },
     ⟨task_id, prompt, .FAILED, "", ⟨0, 0⟩, 0, attempt, lastErr⟩, trace)
  | Nat.succ r, attempt, stats, lastErr, trace =>
    let att := attempt + 1
    let slept := if att > 1 then 2 ^ (att - 1) else 0
    let cmd := _build_command cfg sid prompt true
    let step : Except PyErr (ServiceStats × TaskResult) := do
      let (texts, rd) ← svcAttempt (oracle att)
      attemptFinish stats task_id prompt att texts rd
    match step with
    | .ok (stats1, res) => (stats1, res, trace ++ [⟨cmd, slept⟩])
    | .error e =>
      run_task_go cfg oracle sid task_id prompt r att stats
        (some (pyErrStr e)) (trace ++ [⟨cmd, slept⟩])

/-- `AgentService.run_task` (with the `session_id` already resolved to
`sid`): run the retry loop from attempt 0 with the configured ceiling. -/
def run_task (cfg : Config) (oracle : Nat → ProcOutput) (sid task_id prompt : String)
    (stats : ServiceStats) : ServiceStats × TaskResult × List AttemptRec :=
  run_task_go cfg oracle sid task_id prompt cfg.max_retries 0 stats none []

end AgentService

/-- `Turn` dataclass of `examples/multi-turn/stateful-agent.py`. -/
structure Turn where
  timestamp : String
  prompt : String
  response : String
  cost_usd : Dec
  duration_ms : Int
deriving DecidableEq, Repr

/-- `Session` dataclass: named conversation with history. -/
structure Session where
  session_id : String
  name : String
  created_at : String
  turns : List Turn
  total_cost_usd : Dec
  parent_session_id : Option String
deriving DecidableEq, Repr

/-- `Session.add_turn`: append the turn and add its cost to the running
total. -/
def Session.add_turn (s : Session) (t : Turn) : Session :=
  { s with turns := s.turns ++ [t],
           total_cost_usd := s.total_cost_usd.add t.cost_usd }

/-- `asdict` of a `Turn` (the member order of the dataclass). -/
def Turn.to_dict (t : Turn) : Json :=
  .obj [("timestamp", .str t.timestamp), ("prompt", .str t.prompt),
        ("response", .str t.response), ("cost_usd", .num t.cost_usd),
        ("duration_ms", .num ⟨t.duration_ms, 0⟩)]

/-- `Turn(**t)`: requires exactly the five dataclass fields (a missing or
unexpected keyword raises `TypeError`, modelled through the error branch). -/
def Turn.from_dict (j : Json) : Except PyErr Turn :=
  match j with
  | .obj kvs =>
    if (kvs.map Prod.fst).all (fun k =>
        k = "timestamp" ∨ k = "prompt" ∨ k = "response" ∨ k = "cost_usd" ∨ k = "duration_ms") then do
      let ts ← pyIndex j "timestamp"
      let p ← pyIndex j "prompt"
      let r ← pyIndex j "response"
      let c ← pyIndex j "cost_usd"
      let d ← pyIndex j "duration_ms"
      .ok ⟨ts.asString, p.asString, r.asString, c.asDec, d.asInt⟩
    else .error .typeError
  | _ => .error .typeError

/-- `Session.to_dict` (`asdict(self)`): the dataclass fields in declaration
order, with turns as a list of turn dicts and a `None` parent as JSON
null. -/
def Session.to_dict (s : Session) : Json :=
  .obj [("session_id", .str s.session_id), ("name", .str s.name),
        ("created_at", .str s.created_at),
        ("turns", .arr (s.turns.map Turn.to_dict)),
        ("total_cost_usd", .num s.total_cost_usd),
        ("parent_session_id",
          match s.parent_session_id with | some p => .str p | none => .null)]

/-- The list comprehension `[Turn(**t) for t in data.pop("turns", [])]`. -/
def turnsFromList : List Json → Except PyErr (List Turn)
  | [] => .ok []
  | j :: js => do
    let t ← Turn.from_dict j
    let ts ← turnsFromList js
    .ok (t :: ts)

/-- `Session.from_dict`: pop `turns` (default `[]`), build each `Turn`,
then `cls(**data, turns=turns)` — `session_id`, `name`, `created_at` are
required, `total_cost_usd` defaults to `0.0` and `parent_session_id` to
`None`; an unexpected keyword raises `TypeError`. -/
def Session.from_dict (j : Json) : Except PyErr Session :=
  match j with
  | .obj kvs =>
    let remaining := kvs.filter (fun kv => kv.1 ≠ "turns")
    if (remaining.map Prod.fst).all (fun k =>
        k = "session_id" ∨ k = "name" ∨ k = "created_at" ∨
        k = "total_cost_usd" ∨ k = "parent_session_id") then do
      let turnsJ := (Json.assoc kvs "turns").getD (.arr [])
      let items ← pyIterList turnsJ
      let turns ← turnsFromList items
      let sidJ ← pyIndex (.obj remaining) "session_id"
      let nameJ ← pyIndex (.obj remaining) "name"
      let caJ ← pyIndex (.obj remaining) "created_at"
      let tc := ((Json.assoc remaining "total_cost_usd").getD (.num ⟨0, 0⟩)).asDec
      let ps :=
        match (Json.assoc remaining "parent_session_id").getD .null with
        | .null => Option.none
        | v => some v.asString
      .ok ⟨sidJ.asString, nameJ.asString, caJ.asString, turns, tc, ps⟩
    else .error .typeError
  | _ => .error .typeError

/-- The session store of `StatefulAgent` (one JSON file per session name)
together with `_current_session`. -/
structure AgentStore where
  storage : List (String × Session)
  current : Option Session

/-- `StatefulAgent._save_session`: write the session's file, keyed by its
name (overwriting any previous file of that name). -/
def _save_session (storage : List (String × Session)) (s : Session) :
    List (String × Session) :=
  if storage.any (fun kv => kv.1 = s.name) then
    storage.map (fun kv => if kv.1 = s.name then (kv.1, s) else kv)
  else
    storage ++ [(s.name, s)]

/-- Look up a stored session by name (`_load_session`). -/
def lookupSession (storage : List (String × Session)) (k : String) : Option Session :=
  match storage with
  | [] => none
  | kv :: rest => if kv.1 = k then some kv.2 else lookupSession rest k

/-- `StatefulAgent.fork_session new_name prompt`, given the observed output
`proc` of the `claude -p --resume <parent> --fork-session` subprocess and
the current wall-clock string `now`: raises when there is no current
session or the subprocess failed; otherwise builds a brand-new `Session`
whose `parent_session_id` is the parent's identifier, appends the fork
turn, saves it under `new_name`, and makes it current. The parent session
value is read, never written. -/
def fork_session (st : AgentStore) (now new_name prompt : String) (proc : ProcResult) :
    Except PyErr (Session × AgentStore) := do
  match st.current with
  | none => .error (.runtimeError "No current session to fork")
  | some parent =>
    if proc.returncode ≠ 0 then
      .error (.runtimeError ("Failed to fork: " ++ proc.stderr))
    else
      match Json.parse proc.stdout with
      | none => .error .jsonDecodeError
      | some data => do
        let sid ← pyIndex data "session_id"
        let forked0 : Session :=
          ⟨sid.asString, new_name, now, [], ⟨0, 0⟩, some parent.session_id⟩
        let turn : Turn :=
          ⟨now, "[FORK from " ++ parent.name ++ "] " ++ prompt,
           (← pyGetD data "result" (.str "")).asString,
           (← pyGetD data "total_cost_usd" (.num ⟨0, 0⟩)).asDec,
           (← pyGetD data "duration_ms" (.num ⟨0, 0⟩)).asInt⟩
        let forked := forked0.add_turn turn
        .ok (forked, ⟨_save_session st.storage forked, some forked⟩)

/-- The cost invariant of a `Session`: the running total is the exact sum
of the per-turn costs. -/
def costInv (s : Session) : Prop :=
  s.total_cost_usd.toRat = (s.turns.map (fun t => t.cost_usd.toRat)).sum

/-- A content block on which the `assistant` loop of the claude
`parse_line` continues to the next block: an object whose declared type is
unknown, or a text block whose text is empty. -/
def blockSkipped (b : Json) : Bool :=
  match b with
  | .obj kvs =>
    let bt := ((Json.assoc kvs "type").getD (.str "")).asString
    if bt = "text" then ((Json.assoc kvs "text").getD (.str "")).asString = ""
    else !(bt = "tool_use" || bt = "tool_result" || bt = "thinking")
  | _ => false

/-- A content block on which the `assistant` loop of the claude
`parse_line` returns an event: a tool_use / tool_result / thinking block,
or a text block with non-empty text. -/
def blockReturns (b : Json) : Bool :=
  match b with
  | .obj kvs =>
    let bt := ((Json.assoc kvs "type").getD (.str "")).asString
    bt = "tool_use" || bt = "tool_result" || bt = "thinking" ||
      (bt = "text" && !(((Json.assoc kvs "text").getD (.str "")).asString = ""))
  | _ => false

/-- First line of the spec's end-to-end scenario. -/
def lineHi : String :=
  "\x7b\"type\":\"assistant\",\"message\":\x7b\"content\":[\x7b\"type\":\"text\",\"text\":\"Hi\"\x7d]\x7d\x7d"

/-- Second line of the spec's end-to-end scenario. -/
def lineThere : String :=
  "\x7b\"type\":\"assistant\",\"message\":\x7b\"content\":[\x7b\"type\":\"text\",\"text\":\" there\"\x7d]\x7d\x7d"

/-- Third line of the spec's end-to-end scenario. -/
def lineResult : String :=
  "\x7b\"type\":\"result\",\"total_cost_usd\":0.01,\"duration_ms\":120,\"session_id\":\"abc\",\"is_error\":false\x7d"

/-- An `assistant` line whose first content block is a text block with
empty text and whose second is a tool_use block. -/
def multiBlockLine : String :=
  "\x7b\"type\":\"assistant\",\"message\":\x7b\"content\":[\x7b\"type\":\"text\",\"text\":\"\"\x7d,\x7b\"type\":\"tool_use\",\"name\":\"Bash\",\"input\":\x7b\x7d\x7d]\x7d\x7d"

/-- A subprocess outcome with a non-zero exit code whose stdout is
nevertheless a well-formed (empty) JSON object. -/
def procNonzeroJson : ProcResult := ⟨1, "\x7b\x7d", "boom"⟩

/-- A streaming subprocess that exits 0 after producing no output lines at
all — in particular, no terminal `result` event. -/
def emptyStreamOracle : Nat → ProcOutput := fun _ => ⟨[], 0, ""⟩

/-- A service configuration with the default retry ceiling of 3. -/
def cfgDemo : AgentService.Config := ⟨"acceptEdits", 20, 3, Option.none, Option.none⟩

/-- Observed output of a successful `Initialize agent session` call. -/
def initProcDemo : ProcResult := ⟨0, "\x7b\"session_id\":\"sid123\"\x7d", ""⟩

/-- A client that currently has a persisted session file and a cached
identifier. -/
def staleClient : ClientState := ⟨some "old-id", some "old-id"⟩

/-- A failing streaming attempt (non-zero exit, no output). -/
def failOut : ProcOutput := ⟨[], 1, "boom"⟩

/-- A successful streaming attempt carrying the scenario's result line. -/
def goodOut : ProcOutput := ⟨[lineResult], 0, ""⟩

/-- A subprocess oracle that fails the first two attempts and succeeds on
the third. -/
def oracleFFS : Nat → ProcOutput := fun n => if n ≤ 2 then failOut else goodOut

/-- A sample turn with cost 0.005. -/
def turnDemo1 : Turn := ⟨"t1", "p1", "r1", ⟨5, -3⟩, 10⟩

/-- A sample turn with cost 0.02. -/
def turnDemo2 : Turn := ⟨"t2", "p2", "r2", ⟨2, -2⟩, 20⟩

/-- A sample session named "A" holding one turn, satisfying the cost
invariant. -/
def parentDemo : Session := ⟨"sid-A", "A", "t0", [turnDemo1], ⟨5, -3⟩, Option.none⟩

/-- A store whose current session is `parentDemo`. -/
def storeDemo : AgentStore := ⟨[("A", parentDemo)], some parentDemo⟩

/-- Observed output of a successful `--fork-session` subprocess. -/
def forkProcDemo : ProcResult :=
  ⟨0, "\x7b\"session_id\":\"sid-B\",\"result\":\"ok\",\"total_cost_usd\":0.01,\"duration_ms\":5\x7d", ""⟩

/-- A text block with empty text (skipped by the assistant-block loop). -/
def preDemo : List Json := [.obj [("type", .str "text"), ("text", .str "")]]

/-- A tool_use block (returns an event). -/
def blockDemo : Json := .obj [("type", .str "tool_use"), ("name", .str "Bash"), ("input", .obj [])]

/-- Blocks after the returning one (dropped by the loop). -/
def restDemo : List Json := [.obj [("type", .str "text"), ("text", .str "xx")]]

/-- Parser sanity check: an object with a nested array decodes as
expected. -/
theorem parse_sanity_obj :
    Json.parse "\x7b\"a\":1,\"b\":[true,\"x\"]\x7d" =
      some (.obj [("a", .num ⟨1, 0⟩), ("b", .arr [.bool true, .str "x"])]) := rfl

/-- Parser sanity check: decimal and integer literals. -/
theorem parse_sanity_num :
    Json.parse "0.01" = some (.num ⟨1, -2⟩) ∧ Json.parse "120" = some (.num ⟨120, 0⟩) :=
  ⟨rfl, rfl⟩

/-- Parser sanity check: malformed documents are rejected. -/
theorem parse_sanity_bad :
    Json.parse "\x7b" = none ∧ Json.parse "not json" = none ∧ Json.parse "" = none :=
  ⟨rfl, rfl, rfl⟩

/-- Reduction of a successful monadic bind in the exception monad. -/
theorem bind_ok {α β : Type} (a : α) (f : α → Except PyErr β) :
    (Except.ok a >>= f) = f a := rfl

/-- Reduction of a failed monadic bind in the exception monad. -/
theorem bind_error {α β : Type} (e : PyErr) (f : α → Except PyErr β) :
    ((Except.error e : Except PyErr α) >>= f) = .error e := rfl

/-- Exact-decimal addition agrees with rational addition. -/
theorem Dec.toRat_add (a b : Dec) : (a.add b).toRat = a.toRat + b.toRat := by
  have h10 : (10 : ℚ) ≠ 0 := by norm_num
  unfold Dec.add Dec.toRat
  have ha : (((a.e - min a.e b.e).toNat : ℤ)) = a.e - min a.e b.e :=
    Int.toNat_of_nonneg (by omega)
  have hb : (((b.e - min a.e b.e).toNat : ℤ)) = b.e - min a.e b.e :=
    Int.toNat_of_nonneg (by omega)
  push_cast
  rw [← zpow_natCast (10 : ℚ) (a.e - min a.e b.e).toNat,
      ← zpow_natCast (10 : ℚ) (b.e - min a.e b.e).toNat, ha, hb]
  rw [add_mul, mul_assoc, mul_assoc, ← zpow_add₀ h10, ← zpow_add₀ h10,
      sub_add_cancel, sub_add_cancel]

/-- One `add_turn` preserves the cost invariant. -/
theorem costInv_add_turn (s : Session) (t : Turn) (h : costInv s) :
    costInv (s.add_turn t) := by
  unfold costInv Session.add_turn at *
  simp only [List.map_append, List.sum_append, List.map_cons, List.map_nil,
    List.sum_cons, List.sum_nil, add_zero, Dec.toRat_add, h]

/-- C6 (confirmed): for every session whose running total matches its turn
history, any finite sequence of `add_turn` calls leaves `total_cost_usd`
equal to the exact sum of the per-turn costs; the invariant is maintained
incrementally on every append. -/
theorem total_cost_invariant (s : Session) (ts : List Turn) (h : costInv s) :
    costInv (ts.foldl Session.add_turn s) := by
  induction ts generalizing s with
  | nil => exact h
  | cons t ts ih => exact ih _ (costInv_add_turn s t h)

/-- Witness for C6 at a concrete session and two appended turns. -/
theorem total_cost_invariant_witness :
    costInv parentDemo ∧ costInv ([turnDemo2, turnDemo1].foldl Session.add_turn parentDemo) := by
  have h0 : costInv parentDemo := by
    simp [costInv, parentDemo, turnDemo1]
  exact ⟨h0, total_cost_invariant parentDemo [turnDemo2, turnDemo1] h0⟩

/-- A turn survives the dict round-trip. -/
theorem turn_from_to_dict (t : Turn) : Turn.from_dict t.to_dict = .ok t := by
  simp [Turn.from_dict, Turn.to_dict, pyIndex, Json.assoc, Json.asString,
    Json.asDec, Json.asInt, Dec.toInt, bind_ok, bind_error]

/-- A mapped turn list survives the round-trip. -/
theorem turns_from_to_dict (l : List Turn) :
    turnsFromList (l.map Turn.to_dict) = .ok l := by
  induction l with
  | nil => rfl
  | cons t ts ih => simp [turnsFromList, turn_from_to_dict t, ih, bind_ok, bind_error]

/-- C8 (confirmed): serialization of a session through `to_dict` /
`from_dict` (the content of the JSON session file) is lossless — decoding
the encoding of any session, with any number of turns, returns the session
itself. -/
theorem session_roundtrip (s : Session) : Session.from_dict s.to_dict = .ok s := by
  obtain ⟨sid, nm, ca, tns, tc, ps⟩ := s
  cases ps with
  | none =>
    simp [Session.from_dict, Session.to_dict, pyIndex, pyIterList, Json.assoc,
      Json.asString, Json.asDec, turns_from_to_dict, bind_ok, bind_error]
  | some p =>
    simp [Session.from_dict, Session.to_dict, pyIndex, pyIterList, Json.assoc,
      Json.asString, Json.asDec, turns_from_to_dict, bind_ok, bind_error]

/-- Appending a record under a different name leaves a lookup unchanged. -/
theorem lookupSession_append (storage : List (String × Session)) (nm : String)
    (s : Session) (k : String) (hk : k ≠ nm) :
    lookupSession (storage ++ [(nm, s)]) k = lookupSession storage k := by
  induction storage with
  | nil => simp [lookupSession, Ne.symm hk]
  | cons kv rest ih => by_cases h : kv.1 = k <;> simp [lookupSession, h, ih]

/-- Overwriting the record of a different name leaves a lookup unchanged. -/
theorem lookupSession_overwrite (storage : List (String × Session)) (s : Session)
    (k : String) (hk : k ≠ s.name) :
    lookupSession (storage.map fun kv => if kv.1 = s.name then (kv.1, s) else kv) k =
      lookupSession storage k := by
  induction storage with
  | nil => rfl
  | cons kv rest ih =>
    by_cases h : kv.1 = s.name <;> by_cases h2 : kv.1 = k <;>
      simp_all [lookupSession]

/-- Saving a session touches no other name in the store. -/
theorem lookupSession_save (storage : List (String × Session)) (s : Session)
    (k : String) (hk : k ≠ s.name) :
    lookupSession (_save_session storage s) k = lookupSession storage k := by
  unfold _save_session
  split
  · exact lookupSession_overwrite storage s k hk
  · exact lookupSession_append storage s.name s k hk

/-- C7 (confirmed): a successful `fork_session new_name prompt` returns a
session whose `parent_session_id` is the current (parent) session's
identifier; the parent session value itself is only read — the fork writes
the store solely under `new_name`, so every other name (in particular the
parent's, when distinct) still maps to its previous, unchanged session,
turn list included. -/
theorem fork_preserves_parent (st : AgentStore) (parent : Session)
    (now nn p : String) (proc : ProcResult) (forked : Session) (st' : AgentStore)
    (hc : st.current = some parent)
    (h : fork_session st now nn p proc = .ok (forked, st')) :
    forked.parent_session_id = some parent.session_id ∧
    forked.name = nn ∧
    st'.current = some forked ∧
    ∀ k, k ≠ nn → lookupSession st'.storage k = lookupSession st.storage k := by
  unfold fork_session at h
  rw [hc] at h
  by_cases hrc : proc.returncode ≠ 0
  · simp [hrc] at h
  · simp only [hrc, if_false, ite_false] at h
    cases hp : Json.parse proc.stdout with
    | none => rw [hp] at h; simp at h
    | some data =>
      rw [hp] at h
      dsimp only at h
      cases hsid : pyIndex data "session_id" with
      | error e => simp [hsid, bind_error] at h
      | ok sid =>
        rw [hsid, bind_ok] at h
        cases hr : pyGetD data "result" (.str "") with
        | error e => simp [hr, bind_error] at h
        | ok rv =>
          rw [hr, bind_ok] at h
          cases hcost : pyGetD data "total_cost_usd" (.num ⟨0, 0⟩) with
          | error e => simp [hcost, bind_error] at h
          | ok cv =>
            rw [hcost, bind_ok] at h
            cases hdur : pyGetD data "duration_ms" (.num ⟨0, 0⟩) with
            | error e => simp [hdur, bind_error] at h
            | ok dv =>
              rw [hdur, bind_ok] at h
              injection h with h
              injection h with h1 h2
              subst h1
              subst h2
              refine ⟨rfl, rfl, rfl, fun k hk => ?_⟩
              exact lookupSession_save st.storage _ k hk

/-- Witness for C7: forking the sample store succeeds and the theorem
applies to it. -/
theorem fork_preserves_parent_witness :
    ∃ forked st',
      fork_session storeDemo "t9" "B" "try something" forkProcDemo = .ok (forked, st') ∧
      forked.parent_session_id = some parentDemo.session_id ∧
      lookupSession st'.storage "A" = lookupSession storeDemo.storage "A" := by
  refine ⟨_, _, rfl, ?_⟩
  have h := fork_preserves_parent storeDemo parentDemo "t9" "B" "try something"
    forkProcDemo _ _ rfl rfl
  exact ⟨h.1, h.2.2.2 "A" (by decide)⟩

/-- C1 counterexample: `ClaudeWrapper._execute` on a subprocess that exits
with code 1 but prints a well-formed JSON object silently returns a
default-populated `Result` instead of raising. -/
theorem wrapper_execute_nonzero_exit_cex :
    procNonzeroJson.returncode = 1 ∧
    Wrapper._execute procNonzeroJson = .ok ⟨"", ⟨0, 0⟩, 0, "", false⟩ :=
  ⟨rfl, rfl⟩

/-- C1 (amended): on a non-zero exit code `ClaudeAgent._run_once` raises a
`RuntimeError`; `ClaudeWrapper._execute`, by contrast, never inspects the
exit code — its outcome is identical to that of the same output with exit
code 0 (it raises only when stdout fails to parse as JSON). -/
theorem nonzero_exit_raises_amended (proc : ProcResult) (h : proc.returncode ≠ 0) :
    Agent._run_once proc = .error (.runtimeError ("Claude CLI failed: " ++ proc.stderr)) ∧
    Wrapper._execute proc = Wrapper._execute { proc with returncode := 0 } := by
  constructor
  · simp [Agent._run_once, h]
  · rfl

/-- Witness for C1's amended theorem at the counterexample input. -/
theorem nonzero_exit_raises_amended_witness :
    Agent._run_once procNonzeroJson =
      .error (.runtimeError ("Claude CLI failed: " ++ procNonzeroJson.stderr)) ∧
    Wrapper._execute procNonzeroJson =
      Wrapper._execute { procNonzeroJson with returncode := 0 } :=
  nonzero_exit_raises_amended procNonzeroJson (by decide)

/-- C3 counterexample: the codex-variant `parse_line` returns `None` — not
an `error`-kind Event — on a malformed JSON line. -/
theorem codex_malformed_json_returns_none_cex :
    pyStrip "\x7boops" ≠ "" ∧ Json.parse "\x7boops" = none ∧
    Codex.parse_line .all .init "\x7boops" = .ok (.init, [], none) :=
  ⟨by decide, rfl, rfl⟩

/-- C3 (amended): on a non-blank line that fails JSON decoding, neither
variant raises; the claude-variant `parse_line` returns an `ERROR`-kind
Event, while the codex variant returns no event at all. -/
theorem malformed_json_decode_amended (line : String)
    (hne : pyStrip line ≠ "") (hbad : Json.parse (pyStrip line) = none) :
    (∀ cb st, Claude.parse_line cb st line =
      .ok (st, [], some ⟨.ERROR, .str "JSON parse error", .obj []⟩)) ∧
    (∀ cb st, Codex.parse_line cb st line = .ok (st, [], none)) := by
  constructor
  · intro cb st
    unfold Claude.parse_line
    rw [if_neg hne, hbad]
    rfl
  · intro cb st
    unfold Codex.parse_line
    rw [if_neg hne, hbad]
    rfl

/-- Witness for C3's amended theorem at a concrete malformed line. -/
theorem malformed_json_decode_amended_witness :
    Claude.parse_line .all .init "\x7boops" =
      .ok (.init, [], some ⟨.ERROR, .str "JSON parse error", .obj []⟩) ∧
    Codex.parse_line .all .init "\x7boops" = .ok (.init, [], none) :=
  ⟨(malformed_json_decode_amended "\x7boops" (by decide) rfl).1 .all .init,
   (malformed_json_decode_amended "\x7boops" (by decide) rfl).2 .all .init⟩

/-- C4 (confirmed): feeding the spec's three scenario lines through the
claude decoder and aggregator accumulates the text `"Hi there"` (the TEXT
events concatenated in arrival order), cost `0.01`, duration `120`, and a
clear error flag. -/
theorem pipeline_hi_there_scenario :
    Dec.toRat ⟨1, -2⟩ = 1 / 100 ∧
    ∃ st calls evs,
      Claude.parse_stream .none .init [lineHi, lineThere, lineResult] = .ok (st, calls, evs) ∧
      Claude.collectText evs = "Hi there" ∧
      st.cost_usd = ⟨1, -2⟩ ∧ st.duration_ms = 120 ∧ st.is_error = false := by
  refine ⟨by norm_num [Dec.toRat], _, _, _, rfl, rfl, rfl, rfl, rfl⟩

/-- C9 counterexample: an `assistant` line whose first content block is a
(known-type) text block with empty text and whose second block is a
tool_use block does not return at the first known-type block — the decoder
skips it and surfaces the tool_use event of the second block. -/
theorem parse_line_first_block_cex :
    Json.parse multiBlockLine =
      some (.obj [("type", .str "assistant"),
        ("message", .obj [("content", .arr
          [.obj [("type", .str "text"), ("text", .str "")],
           .obj [("type", .str "tool_use"), ("name", .str "Bash"), ("input", .obj [])]])])]) ∧
    (∃ st calls ev,
      Claude.parse_line .all .init multiBlockLine = .ok (st, calls, some ev) ∧
      ev.type = .TOOL_USE ∧ ev.type ≠ .TEXT) := by
  exact ⟨rfl, _, _, _, rfl, rfl, by decide⟩

/-- C9 (amended): within one `assistant` line the decoder surfaces at most
one event — it returns at the first content block that is a tool_use,
tool_result or thinking block or a text block with non-empty text
(skipping unknown-type blocks and empty-text text blocks); every block
after the returning one is dropped: it changes no statistic, fires no
callback, and yields no event, so the blocks after it are irrelevant to
the outcome. -/
theorem parse_line_single_event_amended (cb : Claude.Callbacks)
    (st : Claude.StreamStats) (data : Json) (pre : List Json) (block : Json)
    (rest : List Json) (hpre : ∀ b ∈ pre, blockSkipped b = true)
    (hb : blockReturns block = true) :
    Claude.processBlocks cb st data (pre ++ block :: rest) =
      Claude.processBlocks cb st data (pre ++ [block]) ∧
    ∃ st' calls ev,
      Claude.processBlocks cb st data (pre ++ [block]) = .ok (st', calls, some ev) := by
  induction pre generalizing st with
  | nil =>
    cases block with
    | obj kvs =>
      simp only [blockReturns, Bool.or_eq_true, decide_eq_true_eq, Bool.and_eq_true,
        Bool.not_eq_true', decide_eq_false_iff_not] at hb
      simp only [List.nil_append]
      rcases hb with ((h1 | h2) | h3) | ⟨h4a, h4b⟩
      · constructor
        · simp [Claude.processBlocks, pyGetD, h1, bind_ok]
        · cases hres : Claude.processBlocks cb st data [Json.obj kvs] with
          | error e => simp [Claude.processBlocks, pyGetD, h1, bind_ok] at hres
          | ok out =>
            obtain ⟨st', calls, evOpt⟩ := out
            cases evOpt with
            | none => simp [Claude.processBlocks, pyGetD, h1, bind_ok] at hres
            | some ev => exact ⟨st', calls, ev, rfl⟩
      · constructor
        · simp [Claude.processBlocks, pyGetD, h2, bind_ok]
        · cases hres : Claude.processBlocks cb st data [Json.obj kvs] with
          | error e => simp [Claude.processBlocks, pyGetD, h2, bind_ok] at hres
          | ok out =>
            obtain ⟨st', calls, evOpt⟩ := out
            cases evOpt with
            | none => simp [Claude.processBlocks, pyGetD, h2, bind_ok] at hres
            | some ev => exact ⟨st', calls, ev, rfl⟩
      · constructor
        · simp [Claude.processBlocks, pyGetD, h3, bind_ok]
        · cases hres : Claude.processBlocks cb st data [Json.obj kvs] with
          | error e => simp [Claude.processBlocks, pyGetD, h3, bind_ok] at hres
          | ok out =>
            obtain ⟨st', calls, evOpt⟩ := out
            cases evOpt with
            | none => simp [Claude.processBlocks, pyGetD, h3, bind_ok] at hres
            | some ev => exact ⟨st', calls, ev, rfl⟩
      · constructor
        · simp [Claude.processBlocks, pyGetD, h4a, h4b, bind_ok]
        · cases hres : Claude.processBlocks cb st data [Json.obj kvs] with
          | error e => simp [Claude.processBlocks, pyGetD, h4a, h4b, bind_ok] at hres
          | ok out =>
            obtain ⟨st', calls, evOpt⟩ := out
            cases evOpt with
            | none => simp [Claude.processBlocks, pyGetD, h4a, h4b, bind_ok] at hres
            | some ev => exact ⟨st', calls, ev, rfl⟩
    | null => simp [blockReturns] at hb
    | bool b => simp [blockReturns] at hb
    | num d => simp [blockReturns] at hb
    | str s => simp [blockReturns] at hb
    | arr xs => simp [blockReturns] at hb
  | cons b pre ih =>
    have hb0 : blockSkipped b = true := hpre b (by simp)
    have hpre' : ∀ x ∈ pre, blockSkipped x = true := fun x hx => hpre x (by simp [hx])
    cases b with
    | obj kvs =>
      simp only [blockSkipped] at hb0
      have hstep := ih st hpre'
      by_cases ht : ((Json.assoc kvs "type").getD (.str "")).asString = "text"
      · rw [if_pos ht] at hb0
        rw [decide_eq_true_eq] at hb0
        constructor
        · simp only [List.cons_append]
          simp [Claude.processBlocks, pyGetD, ht, hb0, bind_ok, hstep.1]
        · obtain ⟨st', calls, ev, hev⟩ := hstep.2
          refine ⟨st', calls, ev, ?_⟩
          simp only [List.cons_append]
          simp [Claude.processBlocks, pyGetD, ht, hb0, bind_ok, hev]
      · rw [if_neg ht] at hb0
        simp only [Bool.not_eq_true', Bool.or_eq_false_iff, decide_eq_false_iff_not] at hb0
        obtain ⟨⟨hu, hr⟩, hk⟩ := hb0
        constructor
        · simp only [List.cons_append]
          simp [Claude.processBlocks, pyGetD, ht, hu, hr, hk, bind_ok, hstep.1]
        · obtain ⟨st', calls, ev, hev⟩ := hstep.2
          refine ⟨st', calls, ev, ?_⟩
          simp only [List.cons_append]
          simp [Claude.processBlocks, pyGetD, ht, hu, hr, hk, bind_ok, hev]
    | null => simp [blockSkipped] at hb0
    | bool bb => simp [blockSkipped] at hb0
    | num d => simp [blockSkipped] at hb0
    | str s => simp [blockSkipped] at hb0
    | arr xs => simp [blockSkipped] at hb0

/-- Witness for C9's amended theorem at concrete blocks. -/
theorem parse_line_single_event_amended_witness :
    Claude.processBlocks .all .init (.obj []) (preDemo ++ blockDemo :: restDemo) =
      Claude.processBlocks .all .init (.obj []) (preDemo ++ [blockDemo]) ∧
    ∃ st' calls ev,
      Claude.processBlocks .all .init (.obj []) (preDemo ++ [blockDemo]) =
        .ok (st', calls, some ev) :=
  parse_line_single_event_amended .all .init (.obj []) preDemo blockDemo restDemo
    (fun b hb => by
      rw [preDemo, List.mem_singleton] at hb
      subst hb
      rfl)
    rfl

/-- C10 counterexample: `ClaudeAgent.reset_session` does not leave the
cleared state the claim describes — after deleting the file and the cached
identifier it immediately re-initializes, so the post-state persists a
fresh session file. -/
theorem reset_session_recreates_cex :
    Agent.reset_session initProcDemo staleClient =
      .ok ("sid123", ⟨some "sid123", some "sid123"⟩) ∧
    (⟨some "sid123", some "sid123"⟩ : ClientState).session_file ≠ none :=
  ⟨rfl, by decide⟩

/-- Every `reset_session` run behaves as if started from the cleared
state: the deletion step erases both fields before `session_id`
re-initializes. -/
theorem reset_session_canonical (initP : ProcResult) (s : ClientState) :
    Agent.reset_session initP s = Agent.session_id initP ⟨none, none⟩ := by
  obtain ⟨f, m⟩ := s
  cases f <;> rfl

/-- C10 (amended): `ClaudeWrapper.reset` is total and idempotent — it
always succeeds and always leaves the fully cleared state (no session
file, no in-memory identifier), so a second call changes nothing and a
missing file never raises. `ClaudeAgent.reset_session` instead clears and
then immediately re-initializes: its outcome is independent of the prior
client state, and on success the post-state persists the fresh identifier
in both the file and memory; repeating it against the same initialize
response reproduces the same state. -/
theorem reset_amended :
    (∀ s : ClientState, Wrapper.reset s = .ok ⟨none, none⟩) ∧
    (∀ (initP : ProcResult) (s s' : ClientState),
      Agent.reset_session initP s = Agent.reset_session initP s') ∧
    (∀ (initP : ProcResult) (s : ClientState) (i : String) (st : ClientState),
      Agent.reset_session initP s = .ok (i, st) →
      st.session_file = some i ∧ st._session_id = some i) ∧
    (∀ (initP : ProcResult) (s : ClientState) (i : String) (st : ClientState),
      Agent.reset_session initP s = .ok (i, st) →
      Agent.reset_session initP st = .ok (i, st)) := by
  refine ⟨?_, ?_, ?_, ?_⟩
  · intro s
    obtain ⟨f, m⟩ := s
    cases f <;> rfl
  · intro initP s s'
    rw [reset_session_canonical, reset_session_canonical]
  · intro initP s i st h
    rw [reset_session_canonical] at h
    unfold Agent.session_id at h
    cases hrun : Agent._run_once initP with
    | error e => rw [hrun] at h; exact Except.noConfusion h
    | ok r =>
      rw [hrun, bind_ok] at h
      injection h with h
      injection h with hi hst
      subst hi
      subst hst
      exact ⟨rfl, rfl⟩
  · intro initP s i st h
    rw [reset_session_canonical] at h ⊢
    exact h

/-- Witness for C10's amended theorem at the counterexample input. -/
theorem reset_amended_witness :
    (⟨some "sid123", some "sid123"⟩ : ClientState).session_file = some "sid123" ∧
    (⟨some "sid123", some "sid123"⟩ : ClientState)._session_id = some "sid123" :=
  reset_amended.2.2.1 initProcDemo staleClient "sid123"
    ⟨some "sid123", some "sid123"⟩ rfl

/-- If no line of the stream decodes to a `result` event, the run loop can
only finish with `final_result` still unset. -/
theorem runLoop_no_result (lines : List String) :
    ∀ texts, (∀ l ∈ lines, Agent.isResultLine l = false) →
      ∀ out fr, Agent.runLoop lines texts none = .ok (out, fr) → fr = none := by
  induction lines with
  | nil =>
    intro texts h out fr hh
    unfold Agent.runLoop at hh
    injection hh with hh
    injection hh with h1 h2
    exact h2.symm
  | cons l ls ih =>
    intro texts h out fr hh
    have hl : Agent.isResultLine l = false := h l (by simp)
    have hls : ∀ x ∈ ls, Agent.isResultLine x = false := fun x hx => h x (by simp [hx])
    unfold Agent.runLoop at hh
    by_cases hemp : pyStrip l = ""
    · rw [if_pos hemp] at hh
      exact ih _ hls _ _ hh
    · rw [if_neg hemp] at hh
      unfold Agent.isResultLine at hl
      rw [if_neg hemp] at hl
      cases hp : Json.parse (pyStrip l) with
      | none => rw [hp] at hh; exact Except.noConfusion hh
      | some data =>
        rw [hp] at hh
        rw [hp] at hl
        dsimp only at hh
        cases data with
        | obj kvs =>
          rw [show pyGetD (.obj kvs) "type" (.str "unknown") =
            .ok ((Json.assoc kvs "type").getD (.str "unknown")) from rfl, bind_ok] at hh
          rw [decide_eq_false_iff_not] at hl
          by_cases ha : ((Json.assoc kvs "type").getD (.str "unknown")).asString = "assistant"
          · rw [if_pos ha] at hh
            cases hm : pyGetD (Json.obj kvs) "message" (.obj []) with
            | error e => rw [hm, bind_error] at hh; exact Except.noConfusion hh
            | ok msgv =>
              rw [hm, bind_ok] at hh
              cases hcont : pyGetD msgv "content" (.arr []) with
              | error e => rw [hcont, bind_error] at hh; exact Except.noConfusion hh
              | ok cont =>
                rw [hcont, bind_ok] at hh
                cases hbl : pyIterList cont with
                | error e => rw [hbl, bind_error] at hh; exact Except.noConfusion hh
                | ok blocks =>
                  rw [hbl, bind_ok] at hh
                  cases hts : Agent.collectTextBlocks blocks with
                  | error e => rw [hts, bind_error] at hh; exact Except.noConfusion hh
                  | ok nts =>
                    rw [hts, bind_ok] at hh
                    exact ih _ hls _ _ hh
          · rw [if_neg ha, if_neg hl] at hh
            exact ih _ hls _ _ hh
        | null => exact Except.noConfusion hh
        | bool b => exact Except.noConfusion hh
        | num d => exact Except.noConfusion hh
        | str s => exact Except.noConfusion hh
        | arr xs => exact Except.noConfusion hh

/-- C2 (amended, claude basic agent): a streaming `ClaudeAgent.run` whose
subprocess output contains no decodable `result` event always raises —
either a mid-stream failure surfaces, or the exit code is non-zero, or the
"No result event received" guard fires; it never fabricates a success. -/
theorem agent_run_stream_no_result_errors (sid : String) (proc : ProcOutput)
    (h : ∀ l ∈ proc.lines, Agent.isResultLine l = false) :
    ∃ e, Agent.run sid proc = .error e := by
  unfold Agent.run
  cases hl : Agent.runLoop proc.lines [] none with
  | error e => exact ⟨e, rfl⟩
  | ok pr =>
    obtain ⟨texts, fr⟩ := pr
    have hfr : fr = none := runLoop_no_result proc.lines [] h texts fr hl
    subst hfr
    by_cases hrc : proc.returncode ≠ 0
    · exact ⟨.runtimeError "Claude CLI failed with nonzero code",
        by simp [bind_ok, hrc]⟩
    · exact ⟨.runtimeError "No result event received",
        by simp [bind_ok, hrc]⟩

/-- Witness for C2's amended theorem: a stream holding one assistant line
and no result event. -/
theorem agent_run_stream_no_result_errors_witness :
    ∃ e, Agent.run "abc" ⟨[lineHi], 0, ""⟩ = .error e :=
  agent_run_stream_no_result_errors "abc" ⟨[lineHi], 0, ""⟩ (by
    intro l hl
    rw [List.mem_singleton] at hl
    subst hl
    rfl)

/-- C2 counterexample: `AgentService.run_task` on a stream that closes
with exit code 0 and no terminal `result` event returns a `SUCCESS`
`TaskResult` with default-zero statistics on the first attempt — it does
not report the missing terminal event as an error. -/
theorem run_task_no_result_event_success_cex :
    (emptyStreamOracle 1).lines = [] ∧
    ∃ statsF res trace,
      AgentService.run_task cfgDemo emptyStreamOracle "sid" "task-1" "do things"
        .init = (statsF, res, trace) ∧
      res.status = .SUCCESS ∧ res.cost_usd = ⟨0, 0⟩ ∧ res.duration_ms = 0 ∧
      res.attempts = 1 := by
  exact ⟨rfl, _, _, _, rfl, rfl, rfl, rfl, rfl⟩

/-- C5 (confirmed): with a retry ceiling of at least 3, a task whose
attempts fail twice (by exception or non-zero exit) and succeed on the
third (terminal event without error flag) yields a `SUCCESS` result with
`attempts = 3`; the waits before the attempts are `0`, `2^1`, `2^2` (so the
cumulative backoff before the third attempt is at least `2^1 + 2^2`), and
every attempt launches the identical command — the same prompt and the same
conversation identifier. -/
theorem run_task_retry_policy
    (cfg : AgentService.Config) (oracle : Nat → ProcOutput) (sid task_id prompt : String)
    (stats0 : AgentService.ServiceStats) (e1 e2 : PyErr) (t3 : List String)
    (rd3 : Option Json) (kvs3 : List (String × Json))
    (hmax : 3 ≤ cfg.max_retries)
    (h1 : AgentService.svcAttempt (oracle 1) = .error e1)
    (h2 : AgentService.svcAttempt (oracle 2) = .error e2)
    (h3 : AgentService.svcAttempt (oracle 3) = .ok (t3, rd3))
    (hobj : rd3.getD (.obj []) = .obj kvs3)
    (herr : ((Json.assoc kvs3 "is_error").getD (.bool false)).asBool = false) :
    ∃ statsF res trace,
      AgentService.run_task cfg oracle sid task_id prompt stats0 = (statsF, res, trace) ∧
      res.status = .SUCCESS ∧ res.attempts = 3 ∧
      trace.map AgentService.AttemptRec.sleptBefore = [0, 2, 4] ∧
      2 ^ 1 + 2 ^ 2 ≤ (trace.map AgentService.AttemptRec.sleptBefore).sum ∧
      trace.map AgentService.AttemptRec.cmd =
        List.replicate 3 (AgentService._build_command cfg sid prompt true) := by
  obtain ⟨k, hk⟩ : ∃ k, cfg.max_retries = (k + 2) + 1 := ⟨cfg.max_retries - 3, by omega⟩
  unfold AgentService.run_task
  rw [hk]
  simp only [AgentService.run_task_go, h1, h2, bind_error]
  norm_num
  rw [h3, bind_ok]
  unfold AgentService.attemptFinish
  rw [hobj]
  simp only [pyGetD, bind_ok, herr, Bool.false_eq_true, if_false, ite_false]
  refine ⟨_, _, _, rfl, rfl, rfl, ?_, ?_, ?_⟩
  · norm_num
  · norm_num
  · norm_num [List.replicate]

/-- Witness for C5 at a concrete fail-fail-succeed oracle. -/
theorem run_task_retry_policy_witness :
    ∃ statsF res trace,
      AgentService.run_task cfgDemo oracleFFS "sid" "t1" "p" .init = (statsF, res, trace) ∧
      res.status = .SUCCESS ∧ res.attempts = 3 ∧
      trace.map AgentService.AttemptRec.sleptBefore = [0, 2, 4] ∧
      2 ^ 1 + 2 ^ 2 ≤ (trace.map AgentService.AttemptRec.sleptBefore).sum ∧
      trace.map AgentService.AttemptRec.cmd =
        List.replicate 3 (AgentService._build_command cfgDemo "sid" "p" true) :=
  run_task_retry_policy cfgDemo oracleFFS "sid" "t1" "p" .init _ _ _ _ _
    (by decide) rfl rfl rfl rfl rfl
